import Mathlib

/-!
Verification of the metric-normalization and Cloud Run resize logic of
CareerHack2024_GCP_API (`src/util/system_metric.py`,
`src/util/cloud_run_upscale.py`) against its natural-language specification.

The pandas `DataFrame` produced by `Query.as_dataframe` is embedded as a
column-label list together with rows of (timestamp, cells); cell values are
either NaN (a missing sample), a float scalar, or a GCP `Distribution`
object (of which only the `mean` attribute is ever read).  Floats are
modelled as rationals.  Mutating pandas operations (`df.loc[index, col] = v`
with possibly duplicated index labels and column labels) are modelled by
explicit whole-table rewriting, matching pandas semantics: the assignment
hits every row whose index label equals `index` and every column whose name
equals `col`.
-/

/-- A row timestamp.  `minute` stands for everything at minute resolution and
above (year..minute); `second` and `micro` are the components that
`x.replace(second=0, microsecond=0)` zeroes. -/
structure Timestamp where
  minute : Nat
  second : Nat
  micro : Nat
  deriving DecidableEq, Repr

/-- `x.replace(second=0, microsecond=0)` on a datetime. -/
def Timestamp.trunc (t : Timestamp) : Timestamp :=
  ⟨t.minute, 0, 0⟩

/-- One cell of the raw dataframe: missing (NaN), a float, or a
`Distribution` summary (count, mean, min, max) of which the code only ever
reads `mean` (duck-typed via `hasattr(value, "mean")`). -/
inductive Sample where
  | nan : Sample
  | scalar (x : ℚ) : Sample
  | dist (count mean lo hi : ℚ) : Sample
  deriving DecidableEq, Repr

/-- Only `Distribution` objects answer `hasattr(value, "mean")`. -/
def Sample.hasMean : Sample → Bool
  | .dist _ _ _ _ => true
  | _ => false

/-- The numeric value of a cell, used once every cell is a float.  (`nan`
and `dist` cells never reach the aggregation stage inside the pipeline:
`fillna` removes `nan` and the collapse loop removes `dist`.) -/
def Sample.toVal : Sample → ℚ
  | .nan => 0
  | .scalar x => x
  | .dist _ m _ _ => m

/-- The raw metric table: ordered column labels (duplicates allowed, as the
monitoring backend can emit several series sharing a label) and ordered rows,
each a timestamp plus one cell per column. -/
structure DataFrame where
  cols : List String
  rows : List (Timestamp × List Sample)
  deriving DecidableEq, Repr

/-- The normalized table: same shape, all cells plain numbers. -/
structure QFrame where
  cols : List String
  rows : List (Timestamp × List ℚ)
  deriving DecidableEq, Repr

/-- `df.fillna(0.0)` on one cell. -/
def Sample.fill0 : Sample → Sample
  | .nan => .scalar 0
  | s => s

/-- `df = df.fillna(0.0)`. -/
def fillna (df : DataFrame) : DataFrame :=
  ⟨df.cols, df.rows.map (fun r => (r.1, r.2.map Sample.fill0))⟩

/-- `df.index = df.index.map(lambda x: x.replace(second=0, microsecond=0))`. -/
def truncateIndex (df : DataFrame) : DataFrame :=
  ⟨df.cols, df.rows.map (fun r => (r.1.trunc, r.2))⟩

/-- `df.loc[t, name] = v` (with `v` a float): pandas assigns to every row
whose index label is `t` and, within such a row, to every column whose
label is `name`. -/
def assignLoc (cols : List String) (rows : List (Timestamp × List Sample))
    (t : Timestamp) (name : String) (v : ℚ) : List (Timestamp × List Sample) :=
  rows.map (fun r =>
    if r.1 = t then
      (r.1, (cols.zip r.2).map (fun p => if p.1 = name then Sample.scalar v else p.2))
    else r)

/-- The inner loop `for column_name, value in row.items()` for one row of
`df.iterrows()`: `row` is a snapshot taken when the row is reached, while the
assignments mutate the live table `rows`. -/
def collapseRow (cols : List String) (t : Timestamp) (snapshot : List Sample)
    (rows : List (Timestamp × List Sample)) : List (Timestamp × List Sample) :=
  (cols.zip snapshot).foldl
    (fun acc p =>
      match p.2 with
      | .dist _ m _ _ => assignLoc cols acc t p.1 m
      | _ => acc)
    rows

/-- The loop `for index, row in df.iterrows(): ... df.loc[index, column_name]
= value.mean`: rows are visited positionally; each row snapshot reflects the
mutations made by earlier iterations. -/
def collapse (df : DataFrame) : DataFrame :=
  ⟨df.cols,
    (List.range df.rows.length).foldl
      (fun acc i =>
        match acc[i]? with
        | some r => collapseRow df.cols r.1 r.2 acc
        | none => acc)
      df.rows⟩

/-- The two reducers used by `groupby(level=0).sum()` / `.max()`. -/
inductive Reducer where
  | sum : Reducer
  | max : Reducer
  deriving DecidableEq, Repr

/-- `max()` of a pandas group (groups are never empty). -/
def maxOf : List ℚ → ℚ
  | [] => 0
  | x :: xs => xs.foldl max x

def applyReducer : Reducer → List ℚ → ℚ
  | .sum, l => l.sum
  | .max, l => maxOf l

/-- Lexicographic order on character lists: the order in which python (and
hence pandas `groupby`) sorts string keys, by code point. -/
def charListLt : List Char → List Char → Bool
  | [], [] => false
  | [], _ :: _ => true
  | _ :: _, [] => false
  | a :: as, b :: bs => if a < b then true else if b < a then false else charListLt as bs

/-- Lexicographic order on strings. -/
def strLt (a b : String) : Bool :=
  charListLt a.data b.data

/-- Insert a label into a sorted duplicate-free key list, as
`groupby(level=0)` collects its group keys (sorted ascending, `sort=True`
being the pandas default). -/
def insertKey (x : String) : List String → List String
  | [] => [x]
  | y :: ys =>
    if strLt x y then x :: y :: ys
    else if x = y then y :: ys
    else y :: insertKey x ys

/-- The group keys of `df.T.groupby(level=0)`: the distinct column labels in
ascending order. -/
def groupKeys (cols : List String) : List String :=
  cols.foldr insertKey []

/-- The cells of one row falling into the group of label `k`, in column
order. -/
def groupVals (cols : List String) (cells : List Sample) (k : String) : List ℚ :=
  (cols.zip cells).filterMap (fun p => if p.1 = k then some p.2.toVal else none)

/-- `df.T.groupby(level=0).sum().T` (resp. `.max()`): per row, cells of
columns sharing a label are reduced to one value; the resulting columns are
the sorted distinct labels.  Row labels (timestamps) are untouched: the
grouping runs over the transposed frame, so it merges duplicate column
labels only, never duplicate row timestamps. -/
def reduceCols (r : Reducer) (df : DataFrame) : QFrame :=
  ⟨groupKeys df.cols,
    df.rows.map (fun row =>
      (row.1, (groupKeys df.cols).map (fun k => applyReducer r (groupVals df.cols row.2 k))))⟩

/-- `df = df * 100`. -/
def scale100 (df : QFrame) : QFrame :=
  ⟨df.cols, df.rows.map (fun r => (r.1, r.2.map (fun x => x * 100)))⟩

/-- `_normalize_dataframe(df, metric)`: fill NaN with 0.0, truncate the
index to minutes, collapse distributions to their mean, then dispatch on
`metric` (the `match metric:` statement, multi-patterns rendered as
disjunctions) to reduce duplicated column labels and scale utilizations to
percent. -/
def normalize_dataframe (df : DataFrame) (metric : String) : QFrame :=
  let df3 := collapse (truncateIndex (fillna df))
  if metric = "request_count" ∨ metric = "request_latencies" then
    reduceCols .sum df3
  else if metric = "CPU_utilization" ∨ metric = "memory_utilization" then
    scale100 (reduceCols .max df3)
  else if metric = "startup_latency" ∨ metric = "instance_count" then
    reduceCols .max df3
  else
    reduceCols .sum df3

/-- The reducer the `match` dispatch applies for a metric name (note the
final catch-all arm: unknown names fall back to `sum`). -/
def reducerFor (metric : String) : Reducer :=
  if metric = "request_count" ∨ metric = "request_latencies" then .sum
  else if metric = "CPU_utilization" ∨ metric = "memory_utilization" then .max
  else if metric = "startup_latency" ∨ metric = "instance_count" then .max
  else .sum

/-- Whether the dispatch multiplies the reduced table by 100. -/
def percentScale (metric : String) : Bool :=
  if metric = "CPU_utilization" ∨ metric = "memory_utilization" then true
  else false

def applyScale (metric : String) (df : QFrame) : QFrame :=
  if percentScale metric then scale100 df else df

/-- A table of plain scalars read back as a `QFrame` (cell-wise numeric
value).  Used to compare a normalization result with its input. -/
def DataFrame.toQ (df : DataFrame) : QFrame :=
  ⟨df.cols, df.rows.map (fun r => (r.1, r.2.map Sample.toVal))⟩

/-! ### The query layer (`get_metric`, `get_metric_async`, `get_all_metrics`)

The Google Cloud Monitoring collaborator (`MetricServiceClient` / `Query` /
`as_dataframe`) is out of scope; it is passed in as a function
`query_raw : metric_type → label → Except String DataFrame` whose `error`
case stands for any exception the query raises. -/

/-- The `metrics_info` dict of `get_metric`: metric name ↦ (type, label). -/
def metrics_info : List (String × String × String) :=
  [("request_count", "run.googleapis.com/request_count", "response_code"),
   ("request_latencies", "run.googleapis.com/request_latencies", "response_code"),
   ("instance_count", "run.googleapis.com/container/instance_count", "state"),
   ("CPU_utilization", "run.googleapis.com/container/cpu/utilizations", "service_name"),
   ("memory_utilization", "run.googleapis.com/container/memory/utilizations", "service_name"),
   ("startup_latency", "run.googleapis.com/container/startup_latencies", "service_name")]

/-- Python dict lookup (first matching key). -/
def dictGet {α : Type} (l : List (String × α)) (k : String) : Option α :=
  match l with
  | [] => none
  | (k1, v) :: rest => if k1 = k then some v else dictGet rest k

/-- `get_metric(metric, days, hours, minutes)`.  Returns the result together
with the number of raw queries issued to the monitoring collaborator.  An
all-zero window returns an empty dataframe before anything else happens; an
unknown metric raises `KeyError` at the `metrics_info[metric]` subscript,
before any query is issued. -/
def get_metric (query_raw : String → String → Except String DataFrame)
    (metric : String) (days hours minutes : Nat) : Except String QFrame × Nat :=
  if days = 0 ∧ hours = 0 ∧ minutes = 0 then
    (.ok ⟨[], []⟩, 0)
  else
    match dictGet metrics_info metric with
    | none => (.error ("KeyError: " ++ metric), 0)
    | some info =>
      match query_raw info.1 info.2 with
      | .error e => (.error e, 1)
      | .ok df => (.ok (normalize_dataframe df metric), 1)

/-- Timestamps as rendered into the JSON wire format. -/
def Timestamp.render (t : Timestamp) : String :=
  toString t.minute ++ ":" ++ toString t.second ++ "." ++ toString t.micro

/-- `df.to_json()` (pandas default orient `columns`:
`\x7bcol: \x7bts: value, ...\x7d, ...\x7d`).  Pandas raises `ValueError`
when the index, or the column set, of the frame is not unique — it checks
the index first — so serialization is fallible; the `error` payloads stand
for the exception messages. -/
def QFrame.to_json (df : QFrame) : Except String String :=
  if (df.rows.map Prod.fst).Nodup then
    if df.cols.Nodup then
      .ok ("\x7b" ++
        String.intercalate ","
          ((List.range df.cols.length).map (fun j =>
            "\x22" ++ df.cols.getD j "" ++ "\x22:\x7b" ++
              String.intercalate ","
                (df.rows.map (fun r =>
                  "\x22" ++ r.1.render ++ "\x22:" ++ toString (r.2.getD j 0))) ++
              "\x7d")) ++
        "\x7d")
    else .error "ValueError: DataFrame columns must be unique for orient=columns."
  else .error "ValueError: DataFrame index must be unique for orient=columns."

/-- The fixed `metric_list` of `get_all_metrics`. -/
def metric_list : List String :=
  ["request_count", "request_latencies", "instance_count",
   "CPU_utilization", "memory_utilization", "startup_latency"]

/-- The body of the response loop of `get_all_metrics` for one (metric,
result) pair: an exception becomes a descriptive message, a dataframe is
serialized by `result.to_json()` — which may itself raise. -/
def responseEntry (metric : String) (result : Except String QFrame) :
    Except String String :=
  match result with
  | .error e => .ok ("An error occurred while getting the metric " ++ metric ++ ":\n" ++ e)
  | .ok df => df.to_json

/-- The response loop of `get_all_metrics`: entries are accumulated in
order, and an exception raised while serializing one entry propagates,
discarding the whole response dict. -/
def build_response : List (String × Except String QFrame) →
    Except String (List (String × String))
  | [] => .ok []
  | (metric, result) :: rest =>
    match responseEntry metric result with
    | .error e => .error e
    | .ok v =>
      match build_response rest with
      | .error e => .error e
      | .ok tail => .ok ((metric, v) :: tail)

/-- `get_all_metrics(days, hours, minutes)`: fan out `get_metric` over the
six fixed names (via `asyncio.gather(..., return_exceptions=True)`, which
collects every result, exception or dataframe, positionally) and build the
response dict: a serialized table on success, a descriptive message on
failure.  The `to_json` call sits in the plain response loop after the
gather, so a serialization error escapes `get_all_metrics` itself. -/
def get_all_metrics (query_raw : String → String → Except String DataFrame)
    (days hours minutes : Nat) : Except String (List (String × String)) :=
  build_response (metric_list.map (fun metric =>
    (metric, (get_metric query_raw metric days hours minutes).1)))

/-! ### The Cloud Run resize operation (`cloud_run_upscale`,
`get_resources_limits`)

The `run_v2.ServicesClient` collaborator is modelled by its observable
effects: the current service configuration is an input, and the calls made
against the control plane (`get_service`, `update_service`) are returned as
an ordered trace. -/

/-- The part of a `run_v2.Service` the code touches:
`template.containers[0].resources.limits`, a string-keyed dict. -/
structure Service where
  limits : List (String × String)
  deriving DecidableEq, Repr

/-- One call against the Cloud Run control plane. -/
inductive CloudCall where
  | getService : CloudCall
  | updateService (svc : Service) : CloudCall
  deriving DecidableEq, Repr

/-- Python dict assignment `d[k] = v`: overwrite in place, else append. -/
def setAssoc : List (String × String) → String → String → List (String × String)
  | [], k, v => [(k, v)]
  | (k1, v1) :: rest, k, v =>
    if k1 = k then (k, v) :: rest else (k1, v1) :: setAssoc rest k v

/-- `cloud_run_upscale(memory_limit, cpu_limit)` over a control plane whose
current configuration is `current`.  Returns the HTTP status (or the
`ValueError` message) and the trace of control-plane calls.  The
`update_service` operation returns the updated service, so the success path
always ends in status 200. -/
def cloud_run_upscale (current : Service) (memory_limit cpu_limit : Option String) :
    Except String Nat × List CloudCall :=
  if memory_limit = none ∧ cpu_limit = none then
    (.error "You must provide at least one of memory_limit or cpu_limit parameters.", [])
  else
    let service := current
    let service : Service :=
      match memory_limit with
      | some m => ⟨setAssoc service.limits "memory" m⟩
      | none => service
    let service : Service :=
      match cpu_limit with
      | some c => ⟨setAssoc service.limits "cpu" c⟩
      | none => service
    (.ok 200, [CloudCall.getService, CloudCall.updateService service])

/-- `get_resources_limits()`: read the service and answer a dict with keys
`memory_limit` and `cpu_limit` (`"Not specified"` when a limit is absent). -/
def get_resources_limits (current : Service) : List (String × String) :=
  [("memory_limit", (dictGet current.limits "memory").getD "Not specified"),
   ("cpu_limit", (dictGet current.limits "cpu").getD "Not specified")]

/-! ### Concrete tables and services used as test inputs -/

/-- Two columns sharing the label `A`, one row, values 3 and 5. -/
def exDup : DataFrame := ⟨["A", "A"], [(⟨5, 0, 0⟩, [.scalar 3, .scalar 5])]⟩

/-- Two rows 30 seconds apart inside one minute: the first a distribution
with mean 7, the second the scalar 3.  Truncation makes their timestamps
collide. -/
def exJitter : DataFrame :=
  ⟨["A"], [(⟨0, 0, 0⟩, [.dist 1 7 0 9]), (⟨0, 30, 0⟩, [.scalar 3])]⟩

/-- An already-normalized table (unique labels, minute-aligned timestamp, no
missing cells) whose labels are not in ascending order. -/
def exUnsorted : DataFrame := ⟨["b", "a"], [(⟨0, 0, 0⟩, [.scalar 1, .scalar 2])]⟩

/-- An already-normalized table with ascending labels. -/
def exSorted : DataFrame := ⟨["a", "b"], [(⟨10, 0, 0⟩, [.scalar 1, .scalar 2])]⟩

/-- A service configuration with both limits set. -/
def exService : Service := ⟨[("memory", "512Mi"), ("cpu", "1000m")]⟩

/-- Modelled from the spec: the normalizer stage composition in the order the
spec lists the stages — (1) missing-value fill, (2) distribution collapse,
(3) timestamp truncation, (4) duplicate reduction, (5) percentage scale.
Kept separate from `normalize_dataframe` (which embeds the source) so the two
orders can be compared. -/
def spec_order_normalize (df : DataFrame) (metric : String) : QFrame :=
  applyScale metric (reduceCols (reducerFor metric) (truncateIndex (collapse (fillna df))))

/-! ### Supporting lemmas -/



lemma foldl_fixed {α β : Type} (f : α → β → α) (a : α) :
    ∀ l : List β, (∀ b ∈ l, f a b = a) → l.foldl f a = a
  | [], _ => rfl
  | b :: l, h => by
    have hb : f a b = a := h b (List.mem_cons_self b l)
    simp only [List.foldl_cons, hb]
    exact foldl_fixed f a l (fun x hx => h x (List.mem_cons_of_mem b hx))

lemma assignLoc_map_fst (cols : List String) (rows : List (Timestamp × List Sample))
    (t : Timestamp) (name : String) (v : ℚ) :
    (assignLoc cols rows t name v).map Prod.fst = rows.map Prod.fst := by
  simp only [assignLoc, List.map_map]
  refine List.map_congr_left (fun r _ => ?_)
  by_cases h : r.1 = t <;> simp [h]

lemma collapseRow_map_fst (cols : List String) (t : Timestamp) :
    ∀ (l : List (String × Sample)) (rows : List (Timestamp × List Sample)),
      ((l.foldl
        (fun acc p =>
          match p.2 with
          | .dist _ m _ _ => assignLoc cols acc t p.1 m
          | _ => acc)
        rows).map Prod.fst) = rows.map Prod.fst
  | [], rows => rfl
  | p :: l, rows => by
    simp only [List.foldl_cons]
    cases hp : p.2 with
    | dist c m lo hi =>
      rw [collapseRow_map_fst cols t l (assignLoc cols rows t p.1 m)]
      exact assignLoc_map_fst cols rows t p.1 m
    | nan => exact collapseRow_map_fst cols t l rows
    | scalar x => exact collapseRow_map_fst cols t l rows

lemma collapse_map_fst_aux (cols : List String) :
    ∀ (idxs : List Nat) (rows : List (Timestamp × List Sample)),
      ((idxs.foldl
        (fun acc i =>
          match acc[i]? with
          | some r => collapseRow cols r.1 r.2 acc
          | none => acc)
        rows).map Prod.fst) = rows.map Prod.fst
  | [], rows => rfl
  | i :: idxs, rows => by
    simp only [List.foldl_cons]
    cases h : rows[i]? with
    | some r =>
      rw [collapse_map_fst_aux cols idxs (collapseRow cols r.1 r.2 rows)]
      exact collapseRow_map_fst cols r.1 (cols.zip r.2) rows
    | none => exact collapse_map_fst_aux cols idxs rows

lemma collapse_map_fst (df : DataFrame) :
    (collapse df).rows.map Prod.fst = df.rows.map Prod.fst :=
  collapse_map_fst_aux df.cols (List.range df.rows.length) df.rows

lemma fillna_of_no_nan (df : DataFrame)
    (h : ∀ r ∈ df.rows, ∀ s ∈ r.2, s ≠ Sample.nan) : fillna df = df := by
  cases df with
  | mk cols rows =>
    simp only [fillna, DataFrame.mk.injEq, true_and]
    conv_rhs => rw [show rows = rows.map id from (List.map_id rows).symm]
    refine List.map_congr_left (fun r hr => ?_)
    have h2 : r.2.map Sample.fill0 = r.2 := by
      conv_rhs => rw [show r.2 = r.2.map id from (List.map_id r.2).symm]
      refine List.map_congr_left (fun s hs => ?_)
      cases s with
      | nan => exact absurd rfl (h r hr Sample.nan hs)
      | scalar x => rfl
      | dist c m lo hi => rfl
    rw [h2]
    simp

lemma truncateIndex_of_aligned (df : DataFrame)
    (h : ∀ r ∈ df.rows, r.1.second = 0 ∧ r.1.micro = 0) : truncateIndex df = df := by
  cases df with
  | mk cols rows =>
    simp only [truncateIndex, DataFrame.mk.injEq, true_and]
    conv_rhs => rw [show rows = rows.map id from (List.map_id rows).symm]
    refine List.map_congr_left (fun r hr => ?_)
    have h2 := h r hr
    have : r.1.trunc = r.1 := by
      cases hr1 : r.1 with
      | mk mi se mc =>
        rw [hr1] at h2
        simp only [Timestamp.trunc]
        simp_all
    rw [this]
    simp

lemma collapseRow_of_no_dist (cols : List String) (t : Timestamp)
    (snapshot : List Sample) (rows : List (Timestamp × List Sample))
    (h : ∀ s ∈ snapshot, s.hasMean = false) :
    collapseRow cols t snapshot rows = rows := by
  refine foldl_fixed _ rows (cols.zip snapshot) (fun p hp => ?_)
  have hs : p.2 ∈ snapshot := (List.of_mem_zip hp).2
  cases hpv : p.2 with
  | dist c m lo hi => rw [hpv] at hs; exact absurd (h _ hs) (by simp [Sample.hasMean])
  | nan => rfl
  | scalar x => rfl

lemma collapse_of_no_dist (df : DataFrame)
    (h : ∀ r ∈ df.rows, ∀ s ∈ r.2, s.hasMean = false) : collapse df = df := by
  cases df with
  | mk cols rows =>
    simp only [collapse, DataFrame.mk.injEq, true_and]
    refine foldl_fixed _ rows (List.range rows.length) (fun i _ => ?_)
    cases hi : rows[i]? with
    | some r =>
      have hr : r ∈ rows := by
        have := List.getElem?_eq_some.mp hi
        obtain ⟨hlt, heq⟩ := this
        exact heq ▸ List.getElem_mem hlt
      exact collapseRow_of_no_dist cols r.1 r.2 rows (h r hr)
    | none => rfl

lemma strLt_irrefl (a : String) : strLt a a = false := by
  show charListLt a.data a.data = false
  induction a.data with
  | nil => rfl
  | cons c cs ih => simp [charListLt, ih]

lemma strLt_ne {a b : String} (h : strLt a b = true) : a ≠ b := by
  intro he
  rw [he, strLt_irrefl] at h
  exact Bool.false_ne_true h

lemma groupKeys_of_sorted :
    ∀ cols : List String, cols.Pairwise (fun a b => strLt a b = true) →
      groupKeys cols = cols
  | [], _ => rfl
  | c :: cs, h => by
    have hcs : groupKeys cs = cs :=
      groupKeys_of_sorted cs (List.Pairwise.sublist (List.sublist_cons_self c cs) h)
    show insertKey c (groupKeys cs) = c :: cs
    rw [hcs]
    cases cs with
    | nil => rfl
    | cons y ys =>
      have hy : strLt c y = true := (List.pairwise_cons.mp h).1 y (List.mem_cons_self y ys)
      simp [insertKey, hy]

lemma groupVals_of_not_mem :
    ∀ (cols : List String) (cells : List Sample) (k : String), k ∉ cols →
      groupVals cols cells k = []
  | [], cells, k, _ => by cases cells <;> rfl
  | c :: cs, [], k, _ => rfl
  | c :: cs, x :: xs, k, h => by
    have hck : ¬(c = k) := fun he => h (he ▸ List.mem_cons_self c cs)
    have : groupVals cs xs k = [] :=
      groupVals_of_not_mem cs xs k (fun hk => h (List.mem_cons_of_mem c hk))
    simp [groupVals, List.filterMap_cons, hck] at this ⊢
    exact this

lemma applyReducer_singleton (r : Reducer) (x : ℚ) : applyReducer r [x] = x := by
  cases r with
  | sum => simp [applyReducer]
  | max => rfl

lemma groupVals_cons (c : String) (cs : List String) (x : Sample) (xs : List Sample)
    (k : String) :
    groupVals (c :: cs) (x :: xs) k =
      if c = k then Sample.toVal x :: groupVals cs xs k else groupVals cs xs k := by
  by_cases h : c = k <;> simp [groupVals, List.filterMap_cons, h]

lemma reduce_row_of_nodup (r : Reducer) :
    ∀ (cols : List String) (cells : List Sample), cols.Nodup →
      cells.length = cols.length →
      cols.map (fun k => applyReducer r (groupVals cols cells k)) = cells.map Sample.toVal
  | [], [], _, _ => rfl
  | [], x :: xs, _, hlen => by simp at hlen
  | c :: cs, [], _, hlen => by simp at hlen
  | c :: cs, x :: xs, hnd, hlen => by
    have hcn : c ∉ cs := (List.nodup_cons.mp hnd).1
    have hnd2 : cs.Nodup := (List.nodup_cons.mp hnd).2
    have hlen2 : xs.length = cs.length := by simpa using hlen
    simp only [List.map_cons]
    congr 1
    · rw [groupVals_cons, if_pos rfl, groupVals_of_not_mem cs xs c hcn,
        applyReducer_singleton]
    · rw [List.map_congr_left (fun k hk => by
        rw [groupVals_cons, if_neg (fun he => hcn (by rw [he]; exact hk))])]
      exact reduce_row_of_nodup r cs xs hnd2 hlen2

lemma dictGet_setAssoc_self : ∀ (l : List (String × String)) (k v : String),
    dictGet (setAssoc l k v) k = some v
  | [], k, v => by simp [setAssoc, dictGet]
  | (k1, v1) :: rest, k, v => by
    by_cases h : k1 = k
    · simp [setAssoc, h, dictGet]
    · simp [setAssoc, h, dictGet, dictGet_setAssoc_self rest k v]

lemma dictGet_setAssoc_other : ∀ (l : List (String × String)) (k v k2 : String), k2 ≠ k →
    dictGet (setAssoc l k v) k2 = dictGet l k2
  | [], k, v, k2, h => by
    have hk : ¬(k = k2) := fun he => h he.symm
    simp [setAssoc, dictGet, hk]
  | (k1, v1) :: rest, k, v, k2, h => by
    by_cases h1 : k1 = k
    · have hk : ¬(k = k2) := fun he => h he.symm
      simp [setAssoc, h1, dictGet, hk]
    · by_cases h2 : k1 = k2
      · simp [setAssoc, h1, dictGet, h2, h]
      · simp [setAssoc, h1, dictGet, h2, dictGet_setAssoc_other rest k v k2 h]

lemma dictGet_map_self {α : Type} (f : String → α) :
    ∀ (l : List String) (a : String), a ∈ l →
      dictGet (l.map (fun m => (m, f m))) a = some (f a)
  | [], a, h => absurd h (List.not_mem_nil a)
  | b :: l, a, h => by
    by_cases hba : b = a
    · subst hba
      simp [dictGet]
    · have ha : a ∈ l := by
        cases List.mem_cons.mp h with
        | inl he => exact absurd he.symm hba
        | inr hl => exact hl
      simp [dictGet, hba, dictGet_map_self f l a ha]

lemma dictGet_metrics_info_none (metric : String) (h : metric ∉ metric_list) :
    dictGet metrics_info metric = none := by
  simp only [metric_list, List.mem_cons, List.not_mem_nil, or_false] at h
  push_neg at h
  obtain ⟨h1, h2, h3, h4, h5, h6⟩ := h
  simp [metrics_info, dictGet, Ne.symm h1, Ne.symm h2, Ne.symm h3, Ne.symm h4,
    Ne.symm h5, Ne.symm h6]

lemma normalize_unknown (metric : String) (h : metric ∉ metric_list) (df : DataFrame) :
    normalize_dataframe df metric = reduceCols .sum (collapse (truncateIndex (fillna df))) := by
  simp only [metric_list, List.mem_cons, List.not_mem_nil, or_false] at h
  push_neg at h
  obtain ⟨h1, h2, h3, h4, h5, h6⟩ := h
  simp [normalize_dataframe, h1, h2, h3, h4, h5, h6]

lemma reduceCols_map_fst (r : Reducer) (df : DataFrame) :
    (reduceCols r df).rows.map Prod.fst = df.rows.map Prod.fst := by
  simp [reduceCols, List.map_map]

lemma scale100_map_fst (df : QFrame) :
    (scale100 df).rows.map Prod.fst = df.rows.map Prod.fst := by
  simp [scale100, List.map_map]

lemma prep_map_fst (df : DataFrame) :
    (collapse (truncateIndex (fillna df))).rows.map Prod.fst
      = df.rows.map (fun r => r.1.trunc) := by
  rw [collapse_map_fst]
  simp [truncateIndex, fillna, List.map_map]

/-- Claim C1: duplicate reduction is table-driven by metric type — cells
sharing a (timestamp, label) group are combined with `Sum` for
`request_count` and `request_latencies` and with `Max` for
`CPU_utilization`, `memory_utilization`, `instance_count` and
`startup_latency` (the utilization metrics additionally scale the reduced
values by 100); concretely, two columns sharing a label with values 3 and 5
yield 8 under a `Sum` metric and 5 under a `Max` metric. -/
theorem c1_reducer_table :
    (∀ df, normalize_dataframe df "request_count"
      = reduceCols .sum (collapse (truncateIndex (fillna df))))
    ∧ (∀ df, normalize_dataframe df "request_latencies"
      = reduceCols .sum (collapse (truncateIndex (fillna df))))
    ∧ (∀ df, normalize_dataframe df "CPU_utilization"
      = scale100 (reduceCols .max (collapse (truncateIndex (fillna df)))))
    ∧ (∀ df, normalize_dataframe df "memory_utilization"
      = scale100 (reduceCols .max (collapse (truncateIndex (fillna df)))))
    ∧ (∀ df, normalize_dataframe df "instance_count"
      = reduceCols .max (collapse (truncateIndex (fillna df))))
    ∧ (∀ df, normalize_dataframe df "startup_latency"
      = reduceCols .max (collapse (truncateIndex (fillna df))))
    ∧ normalize_dataframe exDup "request_count" = ⟨["A"], [(⟨5, 0, 0⟩, [8])]⟩
    ∧ normalize_dataframe exDup "instance_count" = ⟨["A"], [(⟨5, 0, 0⟩, [5])]⟩ := by
  refine ⟨fun df => rfl, fun df => rfl, fun df => rfl, fun df => rfl, fun df => rfl,
    fun df => rfl, ?_, ?_⟩
  · norm_num [normalize_dataframe, exDup, fillna, truncateIndex, collapse, collapseRow,
      List.range_succ, assignLoc, reduceCols, groupKeys, insertKey, groupVals, applyReducer,
      Sample.fill0, Sample.toVal, Timestamp.trunc, scale100, strLt, charListLt,
      List.filterMap_cons, maxOf]
  · norm_num [normalize_dataframe, exDup, fillna, truncateIndex, collapse, collapseRow,
      List.range_succ, assignLoc, reduceCols, groupKeys, insertKey, groupVals, applyReducer,
      Sample.fill0, Sample.toVal, Timestamp.trunc, scale100, strLt, charListLt,
      List.filterMap_cons, maxOf]
    decide

/-- Claim C2, counterexample: the five stages are NOT applied in the order
the claim lists them (fill, collapse, truncate, reduce, scale).  On a table
where truncation makes two rows collide and one of them holds a
distribution, the code (which truncates BEFORE collapsing) lets the
`df.loc` assignment of the distribution mean overwrite the other colliding
row, while the claimed order leaves it intact. -/
theorem c2_order_counterexample :
    normalize_dataframe exJitter "request_count"
      ≠ spec_order_normalize exJitter "request_count" := by
  norm_num [normalize_dataframe, spec_order_normalize, exJitter, fillna, truncateIndex,
    collapse, collapseRow, List.range_succ, assignLoc, reduceCols, groupKeys, insertKey,
    groupVals, applyReducer, Sample.fill0, Sample.toVal, Timestamp.trunc, scale100,
    strLt, charListLt, List.filterMap_cons, maxOf, reducerFor, applyScale, percentScale]
  decide

/-- Claim C2, amended: the normalizer equals the composition of the five
stages in the order (1) missing-value fill, (2) timestamp truncation,
(3) distribution collapse, (4) duplicate reduction with the metric table
reducer, (5) percentage scaling — truncation precedes the collapse, the
reverse of the spec order for those two stages. -/
theorem c2_order_amended (df : DataFrame) (metric : String) :
    normalize_dataframe df metric
      = applyScale metric (reduceCols (reducerFor metric) (collapse (truncateIndex (fillna df)))) := by
  by_cases h1 : metric = "request_count"
  · subst h1; rfl
  by_cases h2 : metric = "request_latencies"
  · subst h2; rfl
  by_cases h3 : metric = "CPU_utilization"
  · subst h3; rfl
  by_cases h4 : metric = "memory_utilization"
  · subst h4; rfl
  by_cases h5 : metric = "startup_latency"
  · subst h5; rfl
  by_cases h6 : metric = "instance_count"
  · subst h6; rfl
  simp [normalize_dataframe, reducerFor, percentScale, applyScale, h1, h2, h3, h4, h5, h6]

/-- Claim C3, counterexample: output rows are NOT unique per
minute-truncated timestamp — two sub-minute rows that collide under
truncation survive as two output rows with the same timestamp. -/
theorem c3_collision_counterexample :
    ¬ ((normalize_dataframe exJitter "request_count").rows.map Prod.fst).Nodup := by
  decide

/-- Claim C3, amended: the normalizer produces exactly one output row per
input row, carrying the input row timestamp truncated to the minute; rows
whose truncated timestamps collide are left as distinct rows (only
duplicate column labels are reduced, timestamp collisions are never
merged). -/
theorem c3_collision_amended (df : DataFrame) (metric : String) :
    (normalize_dataframe df metric).rows.map Prod.fst
      = df.rows.map (fun r => r.1.trunc) := by
  have hplain : ∀ r : Reducer,
      (reduceCols r (collapse (truncateIndex (fillna df)))).rows.map Prod.fst
        = df.rows.map (fun r => r.1.trunc) := fun r => by
    rw [reduceCols_map_fst, prep_map_fst]
  have hscaled : ∀ r : Reducer,
      (scale100 (reduceCols r (collapse (truncateIndex (fillna df))))).rows.map Prod.fst
        = df.rows.map (fun r => r.1.trunc) := fun r => by
    rw [scale100_map_fst, reduceCols_map_fst, prep_map_fst]
  simp only [normalize_dataframe]
  split_ifs
  · exact hplain .sum
  · exact hscaled .max
  · exact hplain .max
  · exact hplain .sum

/-- Claim C4, counterexample: a table satisfying the claim hypotheses
(unique labels, minute-aligned timestamps, no missing cells) is NOT
returned unchanged: with descending labels the grouping re-sorts the
columns, and under a utilization metric every value is additionally
multiplied by 100. -/
theorem c4_idempotence_counterexample :
    exUnsorted.cols.Nodup
    ∧ (∀ r ∈ exUnsorted.rows, r.1.second = 0 ∧ r.1.micro = 0)
    ∧ (∀ r ∈ exUnsorted.rows, ∀ s ∈ r.2, s ≠ Sample.nan)
    ∧ normalize_dataframe exUnsorted "CPU_utilization" ≠ exUnsorted.toQ := by
  refine ⟨by decide, by decide, by decide, ?_⟩
  norm_num [normalize_dataframe, exUnsorted, DataFrame.toQ, fillna, truncateIndex, collapse,
    collapseRow, List.range_succ, assignLoc, reduceCols, groupKeys, insertKey, groupVals,
    applyReducer, Sample.fill0, Sample.toVal, Timestamp.trunc, scale100, strLt, charListLt,
    List.filterMap_cons, maxOf]
  decide

/-- Claim C4, amended: the normalizer is idempotent on already-normalized
input whose labels are moreover in ascending order and whose metric is not
percentage-scaled: for every table with strictly ascending labels,
minute-aligned timestamps and only plain scalar cells, and every metric
that is not `CPU_utilization` or `memory_utilization`, normalizing returns
the table unchanged. -/
theorem c4_idempotence_amended (df : DataFrame) (metric : String)
    (hsort : df.cols.Pairwise (fun a b => strLt a b = true))
    (hlen : ∀ r ∈ df.rows, r.2.length = df.cols.length)
    (halign : ∀ r ∈ df.rows, r.1.second = 0 ∧ r.1.micro = 0)
    (hcells : ∀ r ∈ df.rows, ∀ s ∈ r.2, s ≠ Sample.nan ∧ s.hasMean = false)
    (hscale : percentScale metric = false) :
    normalize_dataframe df metric = df.toQ := by
  have hfill : fillna df = df := fillna_of_no_nan df (fun r hr s hs => (hcells r hr s hs).1)
  have htrunc : truncateIndex df = df := truncateIndex_of_aligned df halign
  have hcoll : collapse df = df := collapse_of_no_dist df (fun r hr s hs => (hcells r hr s hs).2)
  have hnodup : df.cols.Nodup := hsort.imp (fun h => strLt_ne h)
  have hkeys : groupKeys df.cols = df.cols := groupKeys_of_sorted df.cols hsort
  have hred : ∀ r : Reducer, reduceCols r df = df.toQ := by
    intro r
    simp only [reduceCols, DataFrame.toQ, QFrame.mk.injEq]
    refine ⟨hkeys, List.map_congr_left (fun row hrow => ?_)⟩
    rw [hkeys, reduce_row_of_nodup r df.cols row.2 hnodup (hlen row hrow)]
  by_cases h1 : metric = "request_count" ∨ metric = "request_latencies"
  · simp only [normalize_dataframe, if_pos h1]
    rw [hfill, htrunc, hcoll]
    exact hred .sum
  by_cases h2 : metric = "CPU_utilization" ∨ metric = "memory_utilization"
  · exfalso
    simp [percentScale, h2] at hscale
  by_cases h3 : metric = "startup_latency" ∨ metric = "instance_count"
  · simp only [normalize_dataframe, if_neg h1, if_neg h2, if_pos h3]
    rw [hfill, htrunc, hcoll]
    exact hred .max
  · simp only [normalize_dataframe, if_neg h1, if_neg h2, if_neg h3]
    rw [hfill, htrunc, hcoll]
    exact hred .sum

/-- Witness for the amended claim C4 at a concrete sorted table and the
`request_count` metric. -/
theorem c4_idempotence_witness :
    exSorted.cols.Pairwise (fun a b => strLt a b = true)
    ∧ percentScale "request_count" = false
    ∧ normalize_dataframe exSorted "request_count" = exSorted.toQ :=
  ⟨by decide, by decide,
    c4_idempotence_amended exSorted "request_count" (by decide) (by decide) (by decide)
      (by decide) (by decide)⟩

lemma build_response_spec :
    ∀ entries : List (String × Except String QFrame),
      (∀ p ∈ entries, ∃ v, responseEntry p.1 p.2 = Except.ok v) →
      ∃ resp, build_response entries = Except.ok resp
        ∧ resp.map Prod.fst = entries.map Prod.fst
        ∧ (∀ metric r s, dictGet entries metric = some r →
            responseEntry metric r = Except.ok s → dictGet resp metric = some s)
  | [], _ => ⟨[], rfl, rfl, fun metric r s hget _ => by simp [dictGet] at hget⟩
  | (m0, r0) :: rest, h => by
    obtain ⟨v0, hv0⟩ := h (m0, r0) (List.mem_cons_self _ _)
    obtain ⟨tail, htail, hfst, hget⟩ :=
      build_response_spec rest (fun p hp => h p (List.mem_cons_of_mem _ hp))
    refine ⟨(m0, v0) :: tail, ?_, ?_, ?_⟩
    · simp only [build_response, hv0, htail]
    · simp [hfst]
    · intro metric r s hgete hre
      by_cases hm : m0 = metric
      · subst hm
        simp only [dictGet, if_pos rfl] at hgete ⊢
        cases Option.some.inj hgete
        rw [hv0] at hre
        exact congrArg some (Except.ok.inj hre)
      · simp only [dictGet, if_neg hm] at hgete ⊢
        exact hget metric r s hgete hre

/-- Claim C5, counterexample: the all-metrics fetch does NOT always return
the six-key mapping — when one metric fetch succeeds with a table whose
minute-truncated timestamps collide, the `to_json` call in the response
loop raises, the exception escapes `get_all_metrics`, and no key at all is
returned. -/
theorem c5_fetch_all_counterexample :
    get_all_metrics (fun _ _ => Except.ok exJitter) 1 0 0
      = Except.error "ValueError: DataFrame index must be unique for orient=columns." := rfl

/-- Claim C5, amended: provided every successfully fetched table
serializes (pandas `to_json` accepts it), the all-metrics fetch returns a
mapping with exactly the six fixed metric keys regardless of how many
individual fetches fail; each key maps independently to the serialized
table on success and to a descriptive error string on failure, and one
metric fetch failure never changes another metric entry.  Without that
proviso a serialization error aborts the whole call (see the
counterexample). -/
theorem c5_fetch_all (q1 q2 : String → String → Except String DataFrame)
    (days hours minutes : Nat) (metric : String)
    (hser1 : ∀ m ∈ metric_list, ∀ df : QFrame,
      (get_metric q1 m days hours minutes).1 = Except.ok df →
      ∃ s, QFrame.to_json df = Except.ok s)
    (hser2 : ∀ m ∈ metric_list, ∀ df : QFrame,
      (get_metric q2 m days hours minutes).1 = Except.ok df →
      ∃ s, QFrame.to_json df = Except.ok s) :
    ∃ resp1 resp2,
      get_all_metrics q1 days hours minutes = Except.ok resp1
      ∧ get_all_metrics q2 days hours minutes = Except.ok resp2
      ∧ resp1.map Prod.fst = metric_list
      ∧ (∀ e, metric ∈ metric_list →
          (get_metric q1 metric days hours minutes).1 = Except.error e →
          dictGet resp1 metric
            = some ("An error occurred while getting the metric " ++ metric ++ ":\n" ++ e))
      ∧ (∀ df s, metric ∈ metric_list →
          (get_metric q1 metric days hours minutes).1 = Except.ok df →
          QFrame.to_json df = Except.ok s →
          dictGet resp1 metric = some s)
      ∧ (metric ∈ metric_list →
          (get_metric q1 metric days hours minutes).1
            = (get_metric q2 metric days hours minutes).1 →
          dictGet resp1 metric = dictGet resp2 metric) := by
  have hall : ∀ q : String → String → Except String DataFrame,
      (∀ m ∈ metric_list, ∀ df : QFrame,
        (get_metric q m days hours minutes).1 = Except.ok df →
        ∃ s, QFrame.to_json df = Except.ok s) →
      ∀ p ∈ metric_list.map (fun m => (m, (get_metric q m days hours minutes).1)),
        ∃ v, responseEntry p.1 p.2 = Except.ok v := by
    intro q hser p hp
    obtain ⟨m, hm, rfl⟩ := List.mem_map.mp hp
    show ∃ v, responseEntry m ((get_metric q m days hours minutes).1) = Except.ok v
    cases hres : (get_metric q m days hours minutes).1 with
    | error e => exact ⟨_, rfl⟩
    | ok df => exact hser m hm df hres
  obtain ⟨resp1, hr1, hfst1, hget1⟩ := build_response_spec _ (hall q1 hser1)
  obtain ⟨resp2, hr2, hfst2, hget2⟩ := build_response_spec _ (hall q2 hser2)
  refine ⟨resp1, resp2, hr1, hr2, ?_, ?_, ?_, ?_⟩
  · rw [hfst1]
    simp [Function.comp_def]
  · intro e hm herr
    have hd : dictGet (metric_list.map (fun m => (m, (get_metric q1 m days hours minutes).1)))
        metric = some ((get_metric q1 metric days hours minutes).1) :=
      dictGet_map_self (fun m => (get_metric q1 m days hours minutes).1) metric_list metric hm
    rw [herr] at hd
    exact hget1 metric (Except.error e) _ hd rfl
  · intro df s hm hok hs
    have hd : dictGet (metric_list.map (fun m => (m, (get_metric q1 m days hours minutes).1)))
        metric = some ((get_metric q1 metric days hours minutes).1) :=
      dictGet_map_self (fun m => (get_metric q1 m days hours minutes).1) metric_list metric hm
    rw [hok] at hd
    exact hget1 metric (Except.ok df) s hd hs
  · intro hm heq
    have hd1 : dictGet (metric_list.map (fun m => (m, (get_metric q1 m days hours minutes).1)))
        metric = some ((get_metric q1 metric days hours minutes).1) :=
      dictGet_map_self (fun m => (get_metric q1 m days hours minutes).1) metric_list metric hm
    have hd2 : dictGet (metric_list.map (fun m => (m, (get_metric q2 m days hours minutes).1)))
        metric = some ((get_metric q2 metric days hours minutes).1) :=
      dictGet_map_self (fun m => (get_metric q2 m days hours minutes).1) metric_list metric hm
    obtain ⟨v, hv⟩ := hall q1 hser1 _ (List.mem_map.mpr ⟨metric, hm, rfl⟩)
    have e1 : dictGet resp1 metric = some v := hget1 metric _ v hd1 hv
    have hv2 : responseEntry metric ((get_metric q2 metric days hours minutes).1)
        = Except.ok v := by
      rw [← heq]
      exact hv
    have e2 : dictGet resp2 metric = some v := hget2 metric _ v hd2 hv2
    rw [e1, e2]

/-- Witness for the amended claim C5 at a collaborator that always fails
and the `request_count` key (every fetch of the zero window succeeds with
the empty table, which serializes to the empty JSON object). -/
theorem c5_fetch_all_witness :
    ∃ resp1 resp2,
      get_all_metrics (fun _ _ => Except.error "boom") 0 0 0 = Except.ok resp1
      ∧ get_all_metrics (fun _ _ => Except.error "boom") 0 0 0 = Except.ok resp2
      ∧ resp1.map Prod.fst = metric_list
      ∧ (∀ e, "request_count" ∈ metric_list →
          (get_metric (fun _ _ => Except.error "boom") "request_count" 0 0 0).1
            = Except.error e →
          dictGet resp1 "request_count"
            = some ("An error occurred while getting the metric " ++ "request_count"
                ++ ":\n" ++ e))
      ∧ (∀ df s, "request_count" ∈ metric_list →
          (get_metric (fun _ _ => Except.error "boom") "request_count" 0 0 0).1
            = Except.ok df →
          QFrame.to_json df = Except.ok s →
          dictGet resp1 "request_count" = some s)
      ∧ ("request_count" ∈ metric_list →
          (get_metric (fun _ _ => Except.error "boom") "request_count" 0 0 0).1
            = (get_metric (fun _ _ => Except.error "boom") "request_count" 0 0 0).1 →
          dictGet resp1 "request_count" = dictGet resp2 "request_count") :=
  c5_fetch_all (fun _ _ => .error "boom") (fun _ _ => .error "boom") 0 0 0 "request_count"
    (fun _ _ df hdf => ⟨"\x7b\x7d", by
      have h0 : (⟨[], []⟩ : QFrame) = df := Except.ok.inj hdf
      rw [← h0]
      rfl⟩)
    (fun _ _ df hdf => ⟨"\x7b\x7d", by
      have h0 : (⟨[], []⟩ : QFrame) = df := Except.ok.inj hdf
      rw [← h0]
      rfl⟩)

/-- Claim C6: for every metric name, a window of `days = hours = minutes
= 0` returns the empty table as a success, with zero raw queries issued to
the monitoring collaborator. -/
theorem c6_empty_window (query_raw : String → String → Except String DataFrame)
    (metric : String) :
    get_metric query_raw metric 0 0 0 = (Except.ok (⟨[], []⟩ : QFrame), 0) := rfl

/-- Claim C7: calling the resize operation with both `memory_limit` and
`cpu_limit` absent raises the `ValueError` and the call trace against the
control plane is empty — no external call is attempted and the service
state is untouched. -/
theorem c7_resize_validation (current : Service) :
    cloud_run_upscale current none none
      = (Except.error "You must provide at least one of memory_limit or cpu_limit parameters.",
         []) := rfl

/-- Claim C8, counterexample: a reducer IS silently substituted inside the
pipeline for an unknown metric name — the normalizer catch-all arm makes
`bogus_metric` behave exactly like the `Sum` metric `request_count`
instead of reporting an error. -/
theorem c8_unknown_metric_counterexample :
    normalize_dataframe exDup "bogus_metric" = normalize_dataframe exDup "request_count" := rfl

/-- Claim C8, amended: for every metric name outside the fixed catalog of
six (and a non-degenerate window) the metric fetch reports the `KeyError`
raised by the catalog subscript without issuing any raw query; however the
normalizer dispatch itself does not report an error — its catch-all arm
falls back to the `Sum` reducer for unknown names. -/
theorem c8_unknown_metric_amended (query_raw : String → String → Except String DataFrame)
    (metric : String) (days hours minutes : Nat)
    (hm : metric ∉ metric_list) (hw : ¬(days = 0 ∧ hours = 0 ∧ minutes = 0)) :
    get_metric query_raw metric days hours minutes
        = (Except.error ("KeyError: " ++ metric), 0)
    ∧ ∀ df, normalize_dataframe df metric
        = reduceCols .sum (collapse (truncateIndex (fillna df))) := by
  constructor
  · simp only [get_metric, if_neg hw, dictGet_metrics_info_none metric hm]
  · exact fun df => normalize_unknown metric hm df

/-- Witness for the amended claim C8 at the name `bogus_metric` and a
one-day window. -/
theorem c8_unknown_metric_witness :
    "bogus_metric" ∉ metric_list
    ∧ get_metric (fun _ _ => Except.ok exDup) "bogus_metric" 1 0 0
        = (Except.error "KeyError: bogus_metric", 0) :=
  ⟨by decide,
    (c8_unknown_metric_amended (fun _ _ => .ok exDup) "bogus_metric" 1 0 0 (by decide)
      (by decide)).1⟩

/-- Claim C9, counterexample: the resource-limit read does NOT use the
keys `memory` and `cpu` — neither key is present in its result; the keys
actually produced are `memory_limit` and `cpu_limit`. -/
theorem c9_limits_keys_counterexample :
    dictGet (get_resources_limits exService) "memory" = none
    ∧ dictGet (get_resources_limits exService) "cpu" = none
    ∧ (get_resources_limits exService).map Prod.fst = ["memory_limit", "cpu_limit"] := by
  decide

/-- Claim C9, amended: the resource-limit read returns a mapping with the
keys `memory_limit` and `cpu_limit`, each a string giving the service
current limit for that resource. -/
theorem c9_limits_keys_amended (svc : Service) (m c : String)
    (hm : dictGet svc.limits "memory" = some m) (hc : dictGet svc.limits "cpu" = some c) :
    get_resources_limits svc = [("memory_limit", m), ("cpu_limit", c)] := by
  simp [get_resources_limits, hm, hc]

/-- Witness for the amended claim C9 at a concrete service
configuration. -/
theorem c9_limits_keys_witness :
    get_resources_limits exService = [("memory_limit", "512Mi"), ("cpu_limit", "1000m")] :=
  c9_limits_keys_amended exService "512Mi" "1000m" rfl rfl

/-- Claim C10: when exactly one of `memory_limit` / `cpu_limit` is
provided, the service sent to `update_service` modifies only that resource
entry of the limits dict fetched from the current configuration; every
other key, in particular the other resource, keeps its fetched value. -/
theorem c10_frame (current : Service) (v k : String) :
    ((cloud_run_upscale current (some v) none).2
        = [CloudCall.getService, CloudCall.updateService ⟨setAssoc current.limits "memory" v⟩]
      ∧ dictGet (setAssoc current.limits "memory" v) "memory" = some v
      ∧ (k ≠ "memory" →
          dictGet (setAssoc current.limits "memory" v) k = dictGet current.limits k))
    ∧ ((cloud_run_upscale current none (some v)).2
        = [CloudCall.getService, CloudCall.updateService ⟨setAssoc current.limits "cpu" v⟩]
      ∧ dictGet (setAssoc current.limits "cpu" v) "cpu" = some v
      ∧ (k ≠ "cpu" →
          dictGet (setAssoc current.limits "cpu" v) k = dictGet current.limits k)) :=
  ⟨⟨rfl, dictGet_setAssoc_self current.limits "memory" v,
      fun hk => dictGet_setAssoc_other current.limits "memory" v k hk⟩,
    ⟨rfl, dictGet_setAssoc_self current.limits "cpu" v,
      fun hk => dictGet_setAssoc_other current.limits "cpu" v k hk⟩⟩

/-- Witness for claim C10: raising only the memory limit of a concrete
service leaves its cpu limit untouched in the updated configuration. -/
theorem c10_frame_witness :
    (cloud_run_upscale exService (some "1Gi") none).2
      = [CloudCall.getService, CloudCall.updateService ⟨setAssoc exService.limits "memory" "1Gi"⟩]
    ∧ dictGet (setAssoc exService.limits "memory" "1Gi") "cpu" = dictGet exService.limits "cpu" :=
  ⟨(c10_frame exService "1Gi" "cpu").1.1, (c10_frame exService "1Gi" "cpu").1.2.2 (by decide)⟩
